import Mathlib

/- Verification development for the project-workflow state machine of the
seo-blog-builder repository: the Redis-backed `StateManager`
(app/core/state.py), the `Orchestrator` (app/orchestration/orchestrator.py)
and the blog-generator API routes (app/api/routes/blog_generator/routes.py),
embedded shallowly.

Modelling conventions:
* Redis holds JSON strings; documents are serialized with `json.dumps` and
  parsed with `json.loads`.  Python 3.7+ dicts and `json` both preserve
  insertion order, so the round trip is the identity on the structural
  JSON values modelled by `JVal`; the store maps keys directly to parsed
  documents.
* `datetime.now().isoformat()` is passed in as an explicit `now : String`
  (one per top-level operation; the code takes several closely spaced
  readings whose exact values no claim depends on).
* Calls to external collaborators (LLM completion, SEO planner, site
  build/deploy provider) are the only statements inside the orchestrator's
  `try` blocks that can raise; each is passed in as an `Except`/function
  parameter describing its outcome.
* `str` Enum members such as `ProjectStatus.FAILED` serialize to their
  lowercase values ("failed", "completed", "in_progress", "initializing",
  "paused", "not_found"). -/

namespace SeoBlog

/-- Structural JSON values (the results of `json.loads`); `obj` keeps the
insertion order of Python dicts. -/
inductive JVal where
  | null
  | str (s : String)
  | num (n : Int)
  | bool (b : Bool)
  | obj (fields : List (String × JVal))
  | arr (elems : List JVal)

/-- A parsed JSON document (a Python dict), insertion ordered. -/
abbrev Doc := List (String × JVal)

/-- Lookup in an insertion-ordered dict (`d[k]` / `d.get(k)`). -/
def dictGet? {β : Type} : List (String × β) → String → Option β
  | [], _ => none
  | kv :: rest, k => if kv.1 = k then some kv.2 else dictGet? rest k

/-- Python dict assignment `d[k] = v`: replaces in place if the key exists,
otherwise appends at the end. -/
def dictSet {β : Type} : List (String × β) → String → β → List (String × β)
  | [], k, v => [(k, v)]
  | kv :: rest, k, v => if kv.1 = k then (k, v) :: rest else kv :: dictSet rest k v

/-- Python `k in d`. -/
def dictContains {β : Type} (d : List (String × β)) (k : String) : Bool :=
  (dictGet? d k).isSome

/-- Key removal (`redis.delete`). -/
def dictRemove {β : Type} (d : List (String × β)) (k : String) : List (String × β) :=
  d.filter (fun kv => !(kv.1 == k))

/-- Python truthiness of a JSON value (`if not x`). -/
def truthy : JVal → Bool
  | .null => false
  | .str s => s ≠ ""
  | .num n => n ≠ 0
  | .bool b => b
  | .obj f => !f.isEmpty
  | .arr l => !l.isEmpty

/-- `d.get(k, "")` where the reachable value is a string. -/
def getStr (d : Doc) (k : String) : String :=
  match dictGet? d k with
  | some (.str s) => s
  | _ => ""

/-- `v.get(k)` on a value that is a dict in all reachable uses (`None` default). -/
def objGet (v : JVal) (k : String) : JVal :=
  match v with
  | .obj f => (dictGet? f k).getD .null
  | _ => .null

/-- `v.get(k, default)` on a value that is a dict in all reachable uses. -/
def objGetD (v : JVal) (k : String) (default : JVal) : JVal :=
  match v with
  | .obj f => (dictGet? f k).getD default
  | _ => default

/-- The elements of a JSON list (collaborator results iterated by the code). -/
def jvalItems : JVal → List JVal
  | .arr l => l
  | _ => []

/-- Rendering of a value by Python f-string interpolation, modelled only as
far as the string fields any claim inspects (scalars); the dict/list repr
feeds only free-text event descriptions no claim reads. -/
def pyStr : JVal → String
  | .str s => s
  | .null => "None"
  | .num n => toString n
  | .bool b => cond b "True" "False"
  | .obj _ => "<dict repr>"
  | .arr _ => "<list repr>"

/-- The Redis instance used by `StateManager`: string keys holding JSON
state documents, and list keys holding the per-project timelines. -/
structure Store where
  strings : List (String × Doc)
  lists : List (String × List JVal)

def emptyStore : Store := ⟨[], []⟩

/-! ## StateManager (app/core/state.py)

The store-connectivity `except` branches (synthetic `ERROR` status on reads,
`False` on writes) are unreachable in this deterministic model, where the
store is always reachable; no claim is about connectivity failures. -/

/-- `StateManager._get_project_key`. -/
def projectKey (project_id : String) : String :=
  "project:" ++ project_id ++ ":state"

/-- The timeline key built inline by the timeline methods. -/
def timelineKey (project_id : String) : String :=
  "project:" ++ project_id ++ ":timeline"

/-- `StateManager.create_project_state`: refuses to overwrite an existing
document, stamps `created_at` if absent, stores the document. -/
def create_project_state (st : Store) (project_id : String) (initial_state : Doc)
    (now : String) : Bool × Store :=
  let key := projectKey project_id
  if (dictGet? st.strings key).isSome then
    (false, st)
  else
    let initial_state :=
      if dictContains initial_state "created_at" then initial_state
      else dictSet initial_state "created_at" (.str now)
    (true, { st with strings := dictSet st.strings key initial_state })

/-- The synthetic document `get_project_state` returns for a missing key. -/
def notFoundState : Doc :=
  [("status", .str "not_found"), ("error", .str "Project not found")]

/-- `StateManager.get_project_state`. -/
def get_project_state (st : Store) (project_id : String) : Doc :=
  match dictGet? st.strings (projectKey project_id) with
  | none => notFoundState
  | some doc => doc

/-- `StateManager.update_project_state`.  The source's merge loop
`for key, value in updates.items(): current_state[key] = value` rebinds the
variable `key`, which until then held the project's Redis key; the final
`self.redis_client.set(key, ...)` therefore writes the merged document to a
key named after the LAST key of `updates` whenever `updates` is non-empty,
leaving the document under the project's own key untouched. -/
def update_project_state (st : Store) (project_id : String) (updates : Doc)
    (now : String) : Bool × Store :=
  match dictGet? st.strings (projectKey project_id) with
  | none => (false, st)
  | some current_state =>
    let merged := updates.foldl (fun acc kv => dictSet acc kv.1 kv.2) current_state
    let merged := dictSet merged "updated_at" (.str now)
    let writeKey :=
      match updates.getLast? with
      | some kv => kv.1
      | none => projectKey project_id
    (true, { st with strings := dictSet st.strings writeKey merged })

/-- `StateManager.delete_project_state`: deletes the state document only;
the timeline list under `project:{id}:timeline` is not touched. -/
def delete_project_state (st : Store) (project_id : String) : Bool × Store :=
  let key := projectKey project_id
  if (dictGet? st.strings key).isSome then
    (true, { st with strings := dictRemove st.strings key })
  else
    (false, st)

/-- The timestamp stamping in `add_event_to_project_timeline`. -/
def stampTimestamp (event : Doc) (now : String) : Doc :=
  if dictContains event "timestamp" then event
  else dictSet event "timestamp" (.str now)

/-- `StateManager.add_event_to_project_timeline`: `rpush` onto the
project's timeline list. -/
def add_event_to_project_timeline (st : Store) (project_id : String) (event : Doc)
    (now : String) : Bool × Store :=
  let event := stampTimestamp event now
  let key := timelineKey project_id
  let old := (dictGet? st.lists key).getD []
  (true, { st with lists := dictSet st.lists key (old ++ [JVal.obj event]) })

/-- `StateManager.get_project_timeline`: `lrange key 0 -1`, i.e. the whole
list in insertion order; an absent key yields the empty list. -/
def get_project_timeline (st : Store) (project_id : String) : List JVal :=
  (dictGet? st.lists (timelineKey project_id)).getD []

/-! ## Orchestrator (app/orchestration/orchestrator.py) -/

/-- The fixed stage order of `start_project`'s `"stages"` dict. -/
def stageNames : List String :=
  ["topic_analysis", "niche_research", "content_planning", "content_creation",
   "site_generation", "deployment"]

def pendingStage : JVal :=
  .obj [("status", .str "pending"), ("started_at", .null), ("completed_at", .null)]

/-- The `initial_state` document built by `Orchestrator.start_project`. -/
def initialState (project_id topic : String) (user_preferences : JVal)
    (now : String) : Doc :=
  [("project_id", .str project_id), ("topic", .str topic),
   ("preferences", user_preferences), ("status", .str "initializing"),
   ("current_stage", .str "topic_analysis"), ("progress", .num 0),
   ("stages", .obj (stageNames.map (fun s => (s, pendingStage)))),
   ("created_at", .str now), ("updated_at", .str now)]

/-- The timeline-event dicts built inline throughout the orchestrator and
routes: `{"event_type": ..., "description": ..., "data": ...}`. -/
def mkEvent (event_type description : String) (data : JVal) : Doc :=
  [("event_type", .str event_type), ("description", .str description),
   ("data", data)]

/-- `s["status"] == "completed"` for one stage record (a dict with a
`status` key in every reachable state). -/
def stageCompleted (v : JVal) : Bool :=
  match v with
  | .obj f =>
    match dictGet? f "status" with
    | some (.str s) => s == "completed"
    | _ => false
  | _ => false

/-- `all(s["status"] == "completed" for s in state["stages"].values())`. -/
def allStagesCompleted (stages : List (String × JVal)) : Bool :=
  stages.all (fun kv => stageCompleted kv.2)

/-- `state["stages"][stage][field] = v` (the record is a dict in every
reachable state). -/
def setStageField (stages : List (String × JVal)) (stage field : String)
    (v : JVal) : List (String × JVal) :=
  match dictGet? stages stage with
  | some (.obj record) => dictSet stages stage (.obj (dictSet record field v))
  | _ => stages

/-- The in-memory mutation performed by `Orchestrator._update_stage_status`
after its `"stages" in state and stage in state["stages"]` guard passes:
stamp `started_at`/`completed_at`, set the stage's status, update
`current_stage` when a stage starts, derive the global status (`failed` if
this update is a failure, `completed` if every stage record is now
completed, `in_progress` otherwise) and refresh `updated_at`. -/
def markStage (state : Doc) (stages : List (String × JVal))
    (stage status now : String) : Doc :=
  let stages :=
    if status = "in_progress" then setStageField stages stage "started_at" (.str now)
    else if status = "completed" ∨ status = "failed" then
      setStageField stages stage "completed_at" (.str now)
    else stages
  let stages := setStageField stages stage "status" (.str status)
  let state := dictSet state "stages" (.obj stages)
  let state :=
    if status = "in_progress" then dictSet state "current_stage" (.str stage)
    else state
  let state :=
    if status = "failed" then dictSet state "status" (.str "failed")
    else if allStagesCompleted stages then dictSet state "status" (.str "completed")
    else dictSet state "status" (.str "in_progress")
  dictSet state "updated_at" (.str now)

/-- `Orchestrator._update_stage_status`: read the whole state document,
mutate it in memory, and hand the WHOLE document to
`update_project_state` as the updates dict. -/
def update_stage_status (st : Store) (project_id stage status now : String) :
    Store :=
  let state := get_project_state st project_id
  match dictGet? state "stages" with
  | some (.obj stages) =>
    if (dictGet? stages stage).isSome then
      (update_project_state st project_id (markStage state stages stage status now) now).2
    else st
  | _ => st

/-- `Orchestrator.start_project`.  The boolean returned by
`create_project_state` is ignored: the `project_started` event is appended
and the first stage marked regardless of whether creation was refused, and
the returned dict always reports success. -/
def start_project (st : Store) (project_id topic : String)
    (user_preferences : JVal) (now : String) : Doc × Store :=
  let initial := initialState project_id topic user_preferences now
  let st := (create_project_state st project_id initial now).2
  let st := (add_event_to_project_timeline st project_id
    (mkEvent "project_started" ("Started new project for topic: " ++ topic)
      (.obj [("topic", .str topic), ("preferences", user_preferences)])) now).2
  let st := update_stage_status st project_id "topic_analysis" "in_progress" now
  ([("project_id", .str project_id), ("topic", .str topic),
    ("status", .str "initializing"),
    ("message", .str "Project initialized successfully, starting topic analysis")],
   st)

/-- The `analysis_data` dict of `process_topic_analysis`. -/
def analysisData (topic response now : String) : JVal :=
  .obj [("topic", .str topic), ("analysis", .str response),
        ("timestamp", .str now)]

/-- `Orchestrator.process_topic_analysis`; `llm` is the outcome of the
Claude completion call, the only statement in the `try` block that can
raise (template loading returns error strings instead of raising). -/
def process_topic_analysis (st : Store) (project_id : String)
    (llm : Except String String) (now : String) : Doc × Store :=
  let project_state := get_project_state st project_id
  let topic := getStr project_state "topic"
  let st := update_stage_status st project_id "topic_analysis" "in_progress" now
  match llm with
  | .ok response =>
    let analysis_data := analysisData topic response now
    let st := (update_project_state st project_id
      [("topic_analysis", analysis_data), ("progress", .num 15)] now).2
    let st := (add_event_to_project_timeline st project_id
      (mkEvent "topic_analysis_completed" ("Completed topic analysis for: " ++ topic)
        (.obj [("analysis_summary", analysis_data)])) now).2
    let st := update_stage_status st project_id "topic_analysis" "completed" now
    let st := update_stage_status st project_id "niche_research" "in_progress" now
    ([("success", .bool true), ("project_id", .str project_id),
      ("topic", .str topic), ("analysis", analysis_data),
      ("next_stage", .str "niche_research")], st)
  | .error e =>
    let st := update_stage_status st project_id "topic_analysis" "failed" now
    let st := (add_event_to_project_timeline st project_id
      (mkEvent "topic_analysis_failed" ("Failed to complete topic analysis: " ++ e)
        (.obj [("error", .str e)])) now).2
    ([("success", .bool false), ("project_id", .str project_id),
      ("error", .str e), ("message", .str "Failed to complete topic analysis")], st)

/-- The `research_data` dict of `process_niche_research`. -/
def researchData (topic response now : String) : JVal :=
  .obj [("topic", .str topic), ("research", .str response),
        ("timestamp", .str now)]

/-- `Orchestrator.process_niche_research`; `llm` is the OpenAI completion
outcome. -/
def process_niche_research (st : Store) (project_id : String)
    (llm : Except String String) (now : String) : Doc × Store :=
  let project_state := get_project_state st project_id
  let topic := getStr project_state "topic"
  let st := update_stage_status st project_id "niche_research" "in_progress" now
  match llm with
  | .ok response =>
    let research_data := researchData topic response now
    let st := (update_project_state st project_id
      [("niche_research", research_data), ("progress", .num 30)] now).2
    let st := (add_event_to_project_timeline st project_id
      (mkEvent "niche_research_completed" ("Completed niche research for: " ++ topic)
        (.obj [("research_summary", research_data)])) now).2
    let st := update_stage_status st project_id "niche_research" "completed" now
    let st := update_stage_status st project_id "content_planning" "in_progress" now
    ([("success", .bool true), ("project_id", .str project_id),
      ("topic", .str topic), ("research", research_data),
      ("next_stage", .str "content_planning")], st)
  | .error e =>
    let st := update_stage_status st project_id "niche_research" "failed" now
    let st := (add_event_to_project_timeline st project_id
      (mkEvent "niche_research_failed" ("Failed to complete niche research: " ++ e)
        (.obj [("error", .str e)])) now).2
    ([("success", .bool false), ("project_id", .str project_id),
      ("error", .str e), ("message", .str "Failed to complete niche research")], st)

/-- `Orchestrator.process_content_planning`; `planner` is the outcome of
`SeoService.create_content_plan` (a dict per its interface). -/
def process_content_planning (st : Store) (project_id : String)
    (planner : Except String Doc) (now : String) : Doc × Store :=
  let project_state := get_project_state st project_id
  let topic := getStr project_state "topic"
  let st := update_stage_status st project_id "content_planning" "in_progress" now
  let num_articles :=
    objGetD ((dictGet? project_state "preferences").getD (.obj [])) "num_articles" (.num 5)
  match planner with
  | .ok content_plan =>
    let st := (update_project_state st project_id
      [("content_plan", .obj content_plan), ("progress", .num 45)] now).2
    let st := (add_event_to_project_timeline st project_id
      (mkEvent "content_planning_completed"
        ("Created content plan with " ++ pyStr num_articles ++ " articles for: " ++ topic)
        (.obj [("content_plan_summary", .obj
          [("pillar_content",
            objGet ((dictGet? content_plan "pillar_content").getD (.obj [])) "title"),
           ("cluster_content",
            .arr (((jvalItems ((dictGet? content_plan "cluster_content").getD (.arr []))).map
              (fun c => objGet c "title")).take 3)),
           ("total_articles",
            (dictGet? content_plan "total_articles").getD (.num 0))])])) now).2
    let st := update_stage_status st project_id "content_planning" "completed" now
    let st := update_stage_status st project_id "content_creation" "in_progress" now
    ([("success", .bool true), ("project_id", .str project_id),
      ("topic", .str topic), ("content_plan", .obj content_plan),
      ("next_stage", .str "content_creation")], st)
  | .error e =>
    let st := update_stage_status st project_id "content_planning" "failed" now
    let st := (add_event_to_project_timeline st project_id
      (mkEvent "content_planning_failed" ("Failed to complete content planning: " ++ e)
        (.obj [("error", .str e)])) now).2
    ([("success", .bool false), ("project_id", .str project_id),
      ("error", .str e), ("message", .str "Failed to complete content planning")], st)

/-- `Orchestrator.process_content_creation`.  `_generate_article` catches
every exception internally (returning an error article), so this stage's
`try` block cannot raise: the stage always reports success.  `articleGen`
maps an article plan and the pillar flag to the article dict
`_generate_article` returns. -/
def process_content_creation (st : Store) (project_id : String)
    (articleGen : JVal → Bool → JVal) (now : String) : Doc × Store :=
  let project_state := get_project_state st project_id
  let topic := getStr project_state "topic"
  let content_plan := (dictGet? project_state "content_plan").getD (.obj [])
  let st := update_stage_status st project_id "content_creation" "in_progress" now
  let pillar_content := objGetD content_plan "pillar_content" (.obj [])
  let cluster_content := objGetD content_plan "cluster_content" (.arr [])
  let generated_content :=
    (if truthy pillar_content then [articleGen pillar_content true] else [])
      ++ (jvalItems cluster_content).map (fun plan => articleGen plan false)
  let st := (update_project_state st project_id
    [("generated_content", .arr generated_content), ("progress", .num 65)] now).2
  let st := (add_event_to_project_timeline st project_id
    (mkEvent "content_creation_completed"
      ("Created " ++ toString generated_content.length ++ " articles for: " ++ topic)
      (.obj [("article_count", .num generated_content.length),
             ("titles", .arr ((generated_content.take 3).map (fun a => objGet a "title")))]))
    now).2
  let st := update_stage_status st project_id "content_creation" "completed" now
  let st := update_stage_status st project_id "site_generation" "in_progress" now
  ([("success", .bool true), ("project_id", .str project_id),
    ("topic", .str topic), ("content_count", .num generated_content.length),
    ("next_stage", .str "site_generation")], st)

/-- The error raised inside `process_site_generation`'s `try` block: the
default argument of `preferences.get("subdomain", self._generate_slug(topic))`
is evaluated eagerly, so `_generate_slug` always runs, and its function-local
`from app.utils.helpers import slugify` raises ImportError because
app/utils/helpers.py defines no `slugify`. -/
def slugifyImportError : String :=
  "cannot import name 'slugify' from 'app.utils.helpers'"

/-- The error `Orchestrator._create_content_item_from_article` raises when
called: its first expression is `f"CONTENT-{uuid.uuid4().hex[:8].upper()}"`
and the orchestrator module never imports `uuid`.  In
`process_site_generation` this point is unreachable, because the slugify
ImportError above fires earlier in the same `try` block. -/
def contentItemNameError : String := "name 'uuid' is not defined"

/-- `Orchestrator.process_site_generation`.  After marking the stage
in progress, the `subdomain` line raises the slugify ImportError, so the
site-config construction, `create_site`, the content loop (where the
unbound `uuid` would raise `NameError` on the first article) and the
success path are all unreachable: the stage always takes the failure
path. -/
def process_site_generation (st : Store) (project_id : String) (now : String) :
    Doc × Store :=
  let st := update_stage_status st project_id "site_generation" "in_progress" now
  let e := slugifyImportError
  let st := update_stage_status st project_id "site_generation" "failed" now
  let st := (add_event_to_project_timeline st project_id
    (mkEvent "site_generation_failed" ("Failed to generate site: " ++ e)
      (.obj [("error", .str e)])) now).2
  ([("success", .bool false), ("project_id", .str project_id),
    ("error", .str e), ("message", .str "Failed to generate site")], st)

/-- The updates dict `process_deployment` passes to `update_project_state`
on a successful deploy: it contains a literal `"status": "COMPLETED"`
(the uppercase string, not the `ProjectStatus` value "completed"), written
before the deployment stage record is marked completed. -/
def deploymentStateUpdates (deployment_id deployment_url : JVal)
    (provider_name now : String) : Doc :=
  [("deployment", .obj [("id", deployment_id), ("url", deployment_url),
     ("provider", .str provider_name), ("status", .str "deployed"),
     ("deployed_at", .str now)]),
   ("status", .str "COMPLETED"), ("progress", .num 100)]

/-- `Orchestrator.process_deployment`; `build` and `deploy` are the
outcomes of `build_site` and `deploy_site` (dicts per their interface). -/
def process_deployment (st : Store) (project_id : String)
    (build deploy : Except String Doc) (now : String) : Doc × Store :=
  let project_state := get_project_state st project_id
  let site_info := (dictGet? project_state "site").getD (.obj [])
  let preferences := (dictGet? project_state "preferences").getD (.obj [])
  let site_id := objGet site_info "id"
  let fail := fun (st : Store) (e : String) =>
    let st := update_stage_status st project_id "deployment" "failed" now
    let st := (add_event_to_project_timeline st project_id
      (mkEvent "deployment_failed" ("Failed to deploy site: " ++ e)
        (.obj [("error", .str e)])) now).2
    (([("success", .bool false), ("project_id", .str project_id),
       ("error", .str e), ("message", .str "Failed to deploy site")] : Doc), st)
  if !truthy site_id then
    fail st "Site ID not found in project state"
  else
    let st := update_stage_status st project_id "deployment" "in_progress" now
    match build with
    | .error e => fail st e
    | .ok build_result =>
      if !truthy ((dictGet? build_result "success").getD (.bool false)) then
        fail st ("Failed to build site: "
          ++ pyStr ((dictGet? build_result "message").getD .null))
      else
        -- a non-string `deployment_provider` preference would raise at
        -- `.lower()`; no reachable state stores one
        let provider_name :=
          match objGetD preferences "deployment_provider" (.str "vercel") with
          | .str s => s
          | _ => "vercel"
        match deploy with
        | .error e => fail st e
        | .ok deploy_result =>
          if !truthy ((dictGet? deploy_result "success").getD (.bool false)) then
            fail st ("Failed to deploy site: "
              ++ pyStr ((dictGet? deploy_result "message").getD .null))
          else
            let deployment_id := (dictGet? deploy_result "deployment_id").getD .null
            let deployment_url := (dictGet? deploy_result "deployment_url").getD .null
            let st := (update_project_state st project_id
              (deploymentStateUpdates deployment_id deployment_url provider_name now) now).2
            let st := (add_event_to_project_timeline st project_id
              (mkEvent "deployment_completed"
                ("Deployed site to " ++ provider_name ++ ": " ++ pyStr deployment_url)
                (.obj [("deployment_id", deployment_id),
                       ("deployment_url", deployment_url),
                       ("provider", .str provider_name)])) now).2
            let st := update_stage_status st project_id "deployment" "completed" now
            let st := (update_project_state st project_id
              [("status", .str "COMPLETED")] now).2
            ([("success", .bool true), ("project_id", .str project_id),
              ("deployment_url", deployment_url), ("status", .str "completed")], st)

/-! ## Blog-generator routes (app/api/routes/blog_generator/routes.py)
Only the state-store effects are modelled; the relational catalog writes
(SQLAlchemy session) are out of scope per the spec. -/

inductive CancelOutcome where
  | notFound
  | ok (response : Doc)

/-- `cancel_blog_creation`: 404 (no writes) when `get_project_state`
reports `not_found`; otherwise an update setting status `paused`, then a
`project_cancelled` event recording the prior status. -/
def cancel_blog_creation (st : Store) (project_id now : String) :
    CancelOutcome × Store :=
  let project_state := get_project_state st project_id
  if getStr project_state "status" = "not_found" then
    (.notFound, st)
  else
    let st := (update_project_state st project_id
      [("status", .str "paused"), ("updated_at", .str now)] now).2
    let st := (add_event_to_project_timeline st project_id
      (mkEvent "project_cancelled" "Project was cancelled by user request"
        (.obj [("previous_status", (dictGet? project_state "status").getD .null)])) now).2
    (.ok [("project_id", .str project_id), ("status", .str "cancelled"),
          ("message", .str "Blog creation process has been cancelled")], st)

/-- The external-collaborator outcomes a whole workflow run consumes. -/
structure WorkflowExt where
  topicLlm : Except String String
  nicheLlm : Except String String
  planner : Except String Doc
  articleGen : JVal → Bool → JVal
  build : Except String Doc
  deploy : Except String Doc

/-- `result.get("success", False)` as tested by the workflow driver. -/
def succeeded (result : Doc) : Bool :=
  truthy ((dictGet? result "success").getD (.bool false))

/-- `process_blog_workflow`: runs the six stages in sequence, returning
early after the first stage whose result is not a success.  The stage
methods catch all of their own exceptions, so the route's outer `except`
(the `workflow_error` write and event) is unreachable. -/
def process_blog_workflow (st : Store) (project_id : String)
    (ext : WorkflowExt) (now : String) : Store :=
  let r1 := process_topic_analysis st project_id ext.topicLlm now
  if !succeeded r1.1 then r1.2 else
  let r2 := process_niche_research r1.2 project_id ext.nicheLlm now
  if !succeeded r2.1 then r2.2 else
  let r3 := process_content_planning r2.2 project_id ext.planner now
  if !succeeded r3.1 then r3.2 else
  let r4 := process_content_creation r3.2 project_id ext.articleGen now
  if !succeeded r4.1 then r4.2 else
  let r5 := process_site_generation r4.2 project_id now
  if !succeeded r5.1 then r5.2 else
  (process_deployment r5.2 project_id ext.build ext.deploy now).2

/-! ## Specification-side predicates and concrete scenario runs -/

/-- Every top-level key of a document is a short field name (length < 14);
this holds for all documents reachable under any project's state key. -/
def AllKeysShort (d : Doc) : Prop := ∀ kv ∈ d, kv.1.length < 14

/-- The documents under all project state keys agree between two stores. -/
def Preserves (a b : Store) : Prop :=
  ∀ q, dictGet? a.strings (projectKey q) = dictGet? b.strings (projectKey q)

/-- The document (if any) under `pid`'s state key has only short top-level
keys. -/
def ShortDocAt (st : Store) (pid : String) : Prop :=
  ∀ doc, dictGet? st.strings (projectKey pid) = some doc → AllKeysShort doc

/-- One mutating call of `StateManager` (app/core/state.py). -/
inductive StoreStep : Store → Store → Prop where
  | create (st : Store) (pid : String) (initial : Doc) (now : String) :
      StoreStep st (create_project_state st pid initial now).2
  | update (st : Store) (pid : String) (updates : Doc) (now : String) :
      StoreStep st (update_project_state st pid updates now).2
  | delete (st : Store) (pid : String) :
      StoreStep st (delete_project_state st pid).2
  | addEvent (st : Store) (pid : String) (event : Doc) (now : String) :
      StoreStep st (add_event_to_project_timeline st pid event now).2

/-- A fresh project "P1" started on an empty store (spec Scenario A). -/
def startedStore : Store :=
  (start_project emptyStore "P1" "fitness supplements" (.obj []) "t0").2

/-- A second `start` for the already-started "P1". -/
def startedTwice : Doc × Store :=
  start_project startedStore "P1" "fitness supplements" (.obj []) "t1"

/-- Topic analysis on the started project whose executor raises "boom". -/
def topicFailedRun : Doc × Store :=
  process_topic_analysis startedStore "P1" (.error "boom") "t1"

/-- External outcomes for a workflow run whose topic-analysis executor
raises "boom" (everything else would succeed). -/
def c5Ext : WorkflowExt :=
  ⟨.error "boom", .ok "r", .ok [], fun _ _ => .null,
   .ok [("success", .bool true)], .ok [("success", .bool true)]⟩

/-- Topic analysis on the started project whose executor succeeds. -/
def topicOkRun : Doc × Store :=
  process_topic_analysis startedStore "P1" (.ok "great analysis") "t1"

/-- A cancel request against the started project. -/
def cancelRun : CancelOutcome × Store := cancel_blog_creation startedStore "P1" "t2"

/-- A state document that carries a site id (as if site generation had
persisted one), with the stage records untouched. -/
def c4Doc : Doc :=
  dictSet (initialState "P1" "seo" (.obj []) "t0") "site" (.obj [("id", .str "S1")])

def c4Store : Store := ⟨[(projectKey "P1", c4Doc)], []⟩

/-- A successful deployment run (build and deploy both report success). -/
def c4Run : Doc × Store :=
  process_deployment c4Store "P1" (.ok [("success", .bool true)])
    (.ok [("success", .bool true), ("deployment_id", .str "D1"),
          ("deployment_url", .str "https://example.com")]) "t1"

/-- A state document with one generated article. -/
def c10Doc : Doc :=
  dictSet (initialState "P1" "seo" (.obj []) "t0") "generated_content"
    (.arr [.obj [("title", .str "A1")]])

def c10Store : Store := ⟨[(projectKey "P1", c10Doc)], []⟩

/-- Site generation on a project with one generated article. -/
def c10Run : Doc × Store := process_site_generation c10Store "P1" "t1"

/-! ## Basic dictionary lemmas -/

theorem dictGet?_dictSet_self {β : Type} (d : List (String × β)) (k : String)
    (v : β) : dictGet? (dictSet d k v) k = some v := by
  induction d with
  | nil => simp [dictSet, dictGet?]
  | cons kv rest ih =>
    simp only [dictSet]
    split
    next h => simp [dictGet?, h]
    next h => simp [dictGet?, h, ih]

theorem dictGet?_dictSet_ne {β : Type} (d : List (String × β)) (k k2 : String)
    (v : β) (h : k ≠ k2) : dictGet? (dictSet d k v) k2 = dictGet? d k2 := by
  induction d with
  | nil => simp [dictSet, dictGet?, h]
  | cons kv rest ih =>
    simp only [dictSet]
    split
    next heq => simp [dictGet?, h, heq]
    next heq => simp [dictGet?, ih]

theorem dictGet?_dictRemove_self {β : Type} (d : List (String × β)) (k : String) :
    dictGet? (dictRemove d k) k = none := by
  induction d with
  | nil => simp [dictRemove, dictGet?]
  | cons kv rest ih =>
    simp only [dictRemove, List.filter]
    split
    next h =>
      have hne : kv.1 ≠ k := by simpa using h
      simpa [dictGet?, hne] using ih
    next h => simpa [dictRemove] using ih

theorem dictSet_ne_nil {β : Type} (d : List (String × β)) (k : String) (v : β) :
    dictSet d k v ≠ [] := by
  cases d with
  | nil => simp [dictSet]
  | cons kv rest => simp only [dictSet]; split <;> simp

theorem getLast?_isSome_of_ne_nil {α : Type} :
    ∀ (l : List α), l ≠ [] → ∃ a, l.getLast? = some a := by
  intro l
  induction l with
  | nil => intro h; exact absurd rfl h
  | cons x xs ih =>
    intro _
    cases xs with
    | nil => exact ⟨x, rfl⟩
    | cons y ys =>
      obtain ⟨a, ha⟩ := ih (by simp)
      exact ⟨a, by rw [List.getLast?_cons_cons]; exact ha⟩

theorem getLast?_some_mem {α : Type} :
    ∀ {l : List α} {a : α}, l.getLast? = some a → a ∈ l := by
  intro l
  induction l with
  | nil => intro a h; exact Option.noConfusion h
  | cons x xs ih =>
    intro a h
    cases xs with
    | nil =>
      simp only [List.getLast?_singleton, Option.some.injEq] at h
      simp [h]
    | cons y ys =>
      rw [List.getLast?_cons_cons] at h
      exact List.mem_cons_of_mem x (ih h)

/-! ## Key-shape lemmas: the bogus keys that `update_project_state` writes to
(the last key of its updates dict) are short field names, never of the form
`project:{id}:state`, so the misdirected writes can never land on any
project's state document. -/

theorem projectKey_length (pid : String) :
    (projectKey pid).length = pid.length + 14 := by
  have h1 : ("project:" : String).length = 8 := rfl
  have h2 : ((":state") : String).length = 6 := rfl
  simp only [projectKey, String.length_append, h1, h2]
  omega

theorem ne_projectKey_of_short {k : String} (h : k.length < 14) (q : String) :
    k ≠ projectKey q := by
  intro he
  have hq := projectKey_length q
  rw [← he] at hq
  omega

theorem AllKeysShort_dictSet :
    ∀ (d : Doc) (k : String) (v : JVal),
      AllKeysShort d → k.length < 14 → AllKeysShort (dictSet d k v) := by
  intro d
  induction d with
  | nil =>
    intro k v _ hk kv hkv
    simp only [dictSet, List.mem_singleton] at hkv
    subst hkv; exact hk
  | cons kv0 rest ih =>
    intro k v hd hk
    have hd0 : kv0.1.length < 14 := hd kv0 (List.mem_cons_self _ _)
    have hdr : AllKeysShort rest := fun kv hkv => hd kv (List.mem_cons_of_mem _ hkv)
    intro kv hkv
    simp only [dictSet] at hkv
    split at hkv
    next =>
      rcases List.mem_cons.mp hkv with h1 | h1
      · subst h1; exact hk
      · exact hdr kv h1
    next =>
      rcases List.mem_cons.mp hkv with h1 | h1
      · subst h1; exact hd0
      · exact ih k v hdr hk kv h1

theorem AllKeysShort_initialState (pid topic : String) (prefs : JVal)
    (now : String) : AllKeysShort (initialState pid topic prefs now) := by
  intro kv hkv
  simp only [initialState, stageNames, pendingStage, List.map, List.mem_cons,
    List.not_mem_nil, or_false] at hkv
  rcases hkv with rfl | rfl | rfl | rfl | rfl | rfl | rfl | rfl | rfl <;>
    dsimp only <;> decide

theorem AllKeysShort_ite {c : Prop} [Decidable c] {a b : Doc}
    (ha : AllKeysShort a) (hb : AllKeysShort b) : AllKeysShort (if c then a else b) := by
  split
  · exact ha
  · exact hb

theorem AllKeysShort_markStage (state : Doc) (stages : List (String × JVal))
    (stage status now : String) (hs : AllKeysShort state) :
    AllKeysShort (markStage state stages stage status now) := by
  unfold markStage
  have hS1 : ∀ v : JVal, AllKeysShort (dictSet state "stages" v) :=
    fun v => AllKeysShort_dictSet _ _ _ hs (by decide)
  have hS2 : ∀ v : JVal, AllKeysShort (if status = "in_progress"
      then dictSet (dictSet state "stages" v) "current_stage" (.str stage)
      else dictSet state "stages" v) := by
    intro v
    split
    · exact AllKeysShort_dictSet _ _ _ (hS1 v) (by decide)
    · exact hS1 v
  refine AllKeysShort_dictSet _ _ _ ?_ (by decide)
  refine AllKeysShort_ite ?_ (AllKeysShort_ite ?_ ?_) <;>
    exact AllKeysShort_dictSet _ _ _ (hS2 _) (by decide)

theorem markStage_ne_nil (state : Doc) (stages : List (String × JVal))
    (stage status now : String) :
    markStage state stages stage status now ≠ [] := by
  unfold markStage
  split_ifs <;> exact dictSet_ne_nil _ _ _

/-! ## Preservation: no orchestrator mutation ever changes the document
stored under any `project:{id}:state` key, because `update_project_state`
writes the merged document to the (short) last key of its updates dict. -/

theorem Preserves.trans {a b c : Store} (h1 : Preserves a b)
    (h2 : Preserves b c) : Preserves a c :=
  fun q => (h1 q).trans (h2 q)

theorem Preserves.shortDocAt {a b : Store} {pid : String} (h : Preserves a b)
    (hs : ShortDocAt b pid) : ShortDocAt a pid :=
  fun doc hd => hs doc ((h pid).symm.trans hd)

theorem update_preserves (st : Store) (pid : String) (updates : Doc)
    (now : String) (kv : String × JVal) (hlast : updates.getLast? = some kv)
    (hshort : kv.1.length < 14) :
    Preserves (update_project_state st pid updates now).2 st := by
  intro q
  unfold update_project_state
  split
  next => rfl
  next cur heq =>
    simp only [hlast]
    exact dictGet?_dictSet_ne _ _ _ _ (ne_projectKey_of_short hshort q)

theorem add_event_preserves (st : Store) (pid : String) (event : Doc)
    (now : String) :
    Preserves (add_event_to_project_timeline st pid event now).2 st :=
  fun _ => rfl

theorem update_stage_status_preserves (st : Store) (pid stage status now : String)
    (hshort : ShortDocAt st pid) :
    Preserves (update_stage_status st pid stage status now) st := by
  unfold update_stage_status
  dsimp only
  split
  next stages hms =>
    split
    next hst =>
      have hak : AllKeysShort (get_project_state st pid) := by
        unfold get_project_state at hms ⊢
        cases hdoc : dictGet? st.strings (projectKey pid) with
        | none =>
          exfalso
          rw [hdoc] at hms
          simp [notFoundState, dictGet?] at hms
        | some doc => exact hshort doc hdoc
      obtain ⟨kv, hkv⟩ := getLast?_isSome_of_ne_nil _
        (markStage_ne_nil (get_project_state st pid) stages stage status now)
      exact update_preserves st pid _ now kv hkv
        (AllKeysShort_markStage _ stages stage status now hak kv (getLast?_some_mem hkv))
    next => exact fun _ => rfl
  next => exact fun _ => rfl

theorem preserves_refl (a : Store) : Preserves a a := fun _ => rfl

theorem preserves_step_update {a st : Store} {pid : String} {updates : Doc}
    {now : String} (kv : String × JVal) (hlast : updates.getLast? = some kv)
    (hshort : kv.1.length < 14) (p : Preserves a st) :
    Preserves (update_project_state a pid updates now).2 st :=
  (update_preserves a pid updates now kv hlast hshort).trans p

theorem preserves_step_event {a st : Store} {pid : String} {event : Doc}
    {now : String} (p : Preserves a st) :
    Preserves (add_event_to_project_timeline a pid event now).2 st :=
  (add_event_preserves a pid event now).trans p

theorem preserves_step_mark {a st : Store} {pid stage status now : String}
    (p : Preserves a st) (hs : ShortDocAt st pid) :
    Preserves (update_stage_status a pid stage status now) st :=
  (update_stage_status_preserves a pid stage status now (p.shortDocAt hs)).trans p

theorem process_topic_analysis_preserves (st : Store) (pid : String)
    (llm : Except String String) (now : String) (hs : ShortDocAt st pid) :
    Preserves (process_topic_analysis st pid llm now).2 st := by
  unfold process_topic_analysis
  cases llm with
  | ok response =>
    dsimp only
    exact preserves_step_mark (preserves_step_mark (preserves_step_event
      (preserves_step_update ("progress", JVal.num 15) rfl (by decide)
        (preserves_step_mark (preserves_refl st) hs))) hs) hs
  | error e =>
    dsimp only
    exact preserves_step_event (preserves_step_mark
      (preserves_step_mark (preserves_refl st) hs) hs)

theorem process_niche_research_preserves (st : Store) (pid : String)
    (llm : Except String String) (now : String) (hs : ShortDocAt st pid) :
    Preserves (process_niche_research st pid llm now).2 st := by
  unfold process_niche_research
  cases llm with
  | ok response =>
    dsimp only
    exact preserves_step_mark (preserves_step_mark (preserves_step_event
      (preserves_step_update ("progress", JVal.num 30) rfl (by decide)
        (preserves_step_mark (preserves_refl st) hs))) hs) hs
  | error e =>
    dsimp only
    exact preserves_step_event (preserves_step_mark
      (preserves_step_mark (preserves_refl st) hs) hs)

theorem process_content_planning_preserves (st : Store) (pid : String)
    (planner : Except String Doc) (now : String) (hs : ShortDocAt st pid) :
    Preserves (process_content_planning st pid planner now).2 st := by
  unfold process_content_planning
  cases planner with
  | ok content_plan =>
    dsimp only
    exact preserves_step_mark (preserves_step_mark (preserves_step_event
      (preserves_step_update ("progress", JVal.num 45) rfl (by decide)
        (preserves_step_mark (preserves_refl st) hs))) hs) hs
  | error e =>
    dsimp only
    exact preserves_step_event (preserves_step_mark
      (preserves_step_mark (preserves_refl st) hs) hs)

theorem process_content_creation_preserves (st : Store) (pid : String)
    (articleGen : JVal → Bool → JVal) (now : String) (hs : ShortDocAt st pid) :
    Preserves (process_content_creation st pid articleGen now).2 st := by
  unfold process_content_creation
  dsimp only
  exact preserves_step_mark (preserves_step_mark (preserves_step_event
    (preserves_step_update ("progress", JVal.num 65) rfl (by decide)
      (preserves_step_mark (preserves_refl st) hs))) hs) hs

theorem process_site_generation_preserves (st : Store) (pid now : String)
    (hs : ShortDocAt st pid) :
    Preserves (process_site_generation st pid now).2 st := by
  unfold process_site_generation
  dsimp only
  exact preserves_step_event (preserves_step_mark
    (preserves_step_mark (preserves_refl st) hs) hs)

theorem process_deployment_preserves (st : Store) (pid : String)
    (build deploy : Except String Doc) (now : String) (hs : ShortDocAt st pid) :
    Preserves (process_deployment st pid build deploy now).2 st := by
  unfold process_deployment
  dsimp only
  split
  · exact preserves_step_event (preserves_step_mark (preserves_refl st) hs)
  · cases build with
    | error e =>
      dsimp only
      exact preserves_step_event (preserves_step_mark
        (preserves_step_mark (preserves_refl st) hs) hs)
    | ok build_result =>
      dsimp only
      split
      · exact preserves_step_event (preserves_step_mark
          (preserves_step_mark (preserves_refl st) hs) hs)
      · cases deploy with
        | error e =>
          dsimp only
          exact preserves_step_event (preserves_step_mark
            (preserves_step_mark (preserves_refl st) hs) hs)
        | ok deploy_result =>
          dsimp only
          split
          · exact preserves_step_event (preserves_step_mark
              (preserves_step_mark (preserves_refl st) hs) hs)
          · exact preserves_step_update ("status", JVal.str "COMPLETED") rfl (by decide)
              (preserves_step_mark (preserves_step_event
                (preserves_step_update ("progress", JVal.num 100) rfl (by decide)
                  (preserves_step_mark (preserves_refl st) hs))) hs)

theorem process_blog_workflow_preserves (st : Store) (pid : String)
    (ext : WorkflowExt) (now : String) (hs : ShortDocAt st pid) :
    Preserves (process_blog_workflow st pid ext now) st := by
  unfold process_blog_workflow
  dsimp only
  have p1 := process_topic_analysis_preserves st pid ext.topicLlm now hs
  have h1 := p1.shortDocAt hs
  have p2 := process_niche_research_preserves _ pid ext.nicheLlm now h1
  have p2t := p2.trans p1
  have h2 := p2t.shortDocAt hs
  have p3 := process_content_planning_preserves _ pid ext.planner now h2
  have p3t := p3.trans p2t
  have h3 := p3t.shortDocAt hs
  have p4 := process_content_creation_preserves _ pid ext.articleGen now h3
  have p4t := p4.trans p3t
  have h4 := p4t.shortDocAt hs
  have p5 := process_site_generation_preserves _ pid now h4
  have p5t := p5.trans p4t
  have h5 := p5t.shortDocAt hs
  have p6 := process_deployment_preserves _ pid ext.build ext.deploy now h5
  have p6t := p6.trans p5t
  split
  · exact p1
  · split
    · exact p2t
    · split
      · exact p3t
      · split
        · exact p4t
        · split
          · exact p5t
          · exact p6t

/-- After `start_project` on an empty store, the document under the
project's state key is exactly the initial state: the in-progress mark on
`topic_analysis` is lost, because `_update_stage_status` hands the whole
mutated document to `update_project_state`, which writes it under the
document's last key (`updated_at`) instead of the project key. -/
theorem start_project_doc (pid topic : String) (prefs : JVal) (t0 : String) :
    dictGet? (start_project emptyStore pid topic prefs t0).2.strings (projectKey pid)
      = some (initialState pid topic prefs t0) := by
  unfold start_project
  dsimp only
  have hbase : dictGet? (add_event_to_project_timeline
      (create_project_state emptyStore pid (initialState pid topic prefs t0) t0).2 pid
      (mkEvent "project_started" ("Started new project for topic: " ++ topic)
        (.obj [("topic", .str topic), ("preferences", prefs)])) t0).2.strings
      (projectKey pid) = some (initialState pid topic prefs t0) := by
    show dictGet? (dictSet [] (projectKey pid) (initialState pid topic prefs t0))
      (projectKey pid) = some (initialState pid topic prefs t0)
    exact dictGet?_dictSet_self _ _ _
  have hsB : ShortDocAt (add_event_to_project_timeline
      (create_project_state emptyStore pid (initialState pid topic prefs t0) t0).2 pid
      (mkEvent "project_started" ("Started new project for topic: " ++ topic)
        (.obj [("topic", .str topic), ("preferences", prefs)])) t0).2 pid := by
    intro doc hd
    rw [hbase] at hd
    injection hd with h
    subst h
    exact AllKeysShort_initialState pid topic prefs t0
  rw [update_stage_status_preserves _ pid "topic_analysis" "in_progress" t0 hsB pid]
  exact hbase

/-- The project's state document after a whole workflow run on a freshly
started project is still the initial document. -/
theorem workflow_doc_unchanged (pid topic : String) (prefs : JVal)
    (t0 now : String) (ext : WorkflowExt) :
    dictGet? (process_blog_workflow (start_project emptyStore pid topic prefs t0).2
        pid ext now).strings (projectKey pid)
      = some (initialState pid topic prefs t0) := by
  have hdoc := start_project_doc pid topic prefs t0
  have hsd : ShortDocAt (start_project emptyStore pid topic prefs t0).2 pid := by
    intro doc hd
    rw [hdoc] at hd
    injection hd with h
    subst h
    exact AllKeysShort_initialState pid topic prefs t0
  rw [process_blog_workflow_preserves _ pid ext now hsd pid]
  exact hdoc

theorem create_lists (st : Store) (pid : String) (initial : Doc) (now : String) :
    (create_project_state st pid initial now).2.lists = st.lists := by
  unfold create_project_state
  dsimp only
  split <;> rfl

theorem update_lists (st : Store) (pid : String) (updates : Doc) (now : String) :
    (update_project_state st pid updates now).2.lists = st.lists := by
  unfold update_project_state
  split <;> rfl

theorem delete_lists (st : Store) (pid : String) :
    (delete_project_state st pid).2.lists = st.lists := by
  unfold delete_project_state
  dsimp only
  split <;> rfl

theorem add_event_timeline (st : Store) (pid q : String) (event : Doc)
    (now : String) :
    get_project_timeline (add_event_to_project_timeline st pid event now).2 q
      = get_project_timeline st q
        ∨ get_project_timeline (add_event_to_project_timeline st pid event now).2 q
          = get_project_timeline st q ++ [JVal.obj (stampTimestamp event now)] := by
  unfold add_event_to_project_timeline get_project_timeline
  dsimp only
  by_cases h : timelineKey pid = timelineKey q
  · right
    rw [← h, dictGet?_dictSet_self]
    rfl
  · left
    rw [dictGet?_dictSet_ne _ _ _ _ h]

/-! ## Claim theorems -/

/-- C1: the claim says `update` merges the partial updates into the
document stored under the project's key, refreshes `updated_at` there and
leaves the store otherwise unchanged.  The code instead returns `True`
while leaving the document under `project:P1:state` completely untouched
and writing the merged, `updated_at`-refreshed document under the
top-level Redis key `progress` (the last key of the updates dict): the
merge loop `for key, value in updates.items()` rebinds the variable
holding the project's Redis key, misdirecting the final write. -/
theorem C1_update_misdirected_write :
    (update_project_state startedStore "P1" [("progress", .num 15)] "t1").1 = true
    ∧ get_project_state (update_project_state startedStore "P1"
        [("progress", .num 15)] "t1").2 "P1" = get_project_state startedStore "P1"
    ∧ dictGet? (update_project_state startedStore "P1"
        [("progress", .num 15)] "t1").2.strings "progress"
      = some (dictSet (dictSet (get_project_state startedStore "P1") "progress"
          (.num 15)) "updated_at" (.str "t1")) :=
  ⟨rfl, rfl, rfl⟩

/-- C2: the claim says a second `start` for the same project reports a
conflict and leaves state and timeline as after the first call alone.
In the code the stored state document is indeed unchanged (creation
refuses to overwrite), but `start_project` ignores that refusal: it
appends a SECOND `project_started` event to the timeline and returns the
ordinary success response with no conflict indication. -/
theorem C2_second_start_not_conflict :
    get_project_state startedTwice.2 "P1" = get_project_state startedStore "P1"
    ∧ (get_project_timeline startedTwice.2 "P1").map (fun e => objGet e "event_type")
        = [.str "project_started", .str "project_started"]
    ∧ dictGet? startedTwice.1 "message"
        = some (.str "Project initialized successfully, starting topic analysis")
    ∧ dictGet? startedTwice.1 "error" = none :=
  ⟨rfl, rfl, rfl, rfl⟩

/-- C3 counterexample: after deleting "P1", a get reports NOT_FOUND as
the claim says, but `list_events` does NOT return the empty sequence:
the `project_started` event is still there, because
`delete_project_state` deletes only `project:P1:state` and never touches
`project:P1:timeline`. -/
theorem C3_counterexample_timeline_survives_delete :
    get_project_state (delete_project_state startedStore "P1").2 "P1" = notFoundState
    ∧ get_project_timeline (delete_project_state startedStore "P1").2 "P1" ≠ [] := by
  refine ⟨rfl, ?_⟩
  intro h
  have hlen :
      (get_project_timeline (delete_project_state startedStore "P1").2 "P1").length
        = 1 := rfl
  rw [h] at hlen
  exact absurd hlen (by decide)

/-- C3 amended: delete removes only the state document.  Afterwards a get
returns the synthetic NOT_FOUND document, `list_events` returns the
project's timeline unchanged (so it is empty only if no events were ever
appended), and the returned boolean is exactly whether a state document
existed (false when there was nothing to delete). -/
theorem C3_delete_removes_state_only (st : Store) (pid : String) :
    get_project_state (delete_project_state st pid).2 pid = notFoundState
    ∧ get_project_timeline (delete_project_state st pid).2 pid
        = get_project_timeline st pid
    ∧ (delete_project_state st pid).1 = (dictGet? st.strings (projectKey pid)).isSome := by
  unfold delete_project_state
  dsimp only
  split
  next h =>
    refine ⟨?_, rfl, h.symm⟩
    unfold get_project_state
    dsimp only
    rw [dictGet?_dictRemove_self]
  next h =>
    have hn : dictGet? st.strings (projectKey pid) = none := by
      cases hx : dictGet? st.strings (projectKey pid) with
      | none => rfl
      | some d => rw [hx] at h; simp at h
    refine ⟨?_, rfl, ?_⟩
    · unfold get_project_state
      rw [hn]
    · rw [hn]; rfl

/-- C4: the claim says the global status is derived from the per-stage
records and never set independently by stage code.  `process_deployment`
violates this: on a successful deploy it passes a literal
`"status": "COMPLETED"` in its update payload before the deployment stage
record is marked completed, so the document it hands the store carries
global status "COMPLETED" while its stage records are not all completed
(the store's update bug then lands that document under the key
`progress`); the project's own persisted document still reads
`initializing`. -/
theorem C4_deployment_sets_status_directly :
    succeeded c4Run.1 = true
    ∧ dictGet? (deploymentStateUpdates (.str "D1") (.str "https://example.com")
        "vercel" "t1") "status" = some (.str "COMPLETED")
    ∧ (dictGet? c4Run.2.strings "progress").map (fun d => getStr d "status")
        = some "COMPLETED"
    ∧ (dictGet? c4Run.2.strings "progress").map (fun d =>
        match dictGet? d "stages" with
        | some (.obj s) => allStagesCompleted s
        | _ => true) = some false
    ∧ getStr (get_project_state c4Run.2 "P1") "status" = "initializing" :=
  ⟨rfl, rfl, rfl, rfl, rfl⟩

/-- C5: the claim says a failing stage is persisted as failed with the
error in the state document and a failure timeline event, with later
stages pending and no chaining.  When the topic-analysis executor raises
"boom" on the started project, the method does report failure, does
append a `topic_analysis_failed` event carrying the error text, and the
workflow driver stops — but the persisted state document is completely
unchanged: the stage record is still `pending` (not `failed`), the global
status still `initializing` (not FAILED), and no error text is recorded
in the document, because the failure marks are written to the wrong Redis
key by the update bug. -/
theorem C5_stage_failure_not_persisted :
    succeeded topicFailedRun.1 = false
    ∧ dictGet? topicFailedRun.1 "error" = some (.str "boom")
    ∧ get_project_state topicFailedRun.2 "P1" = get_project_state startedStore "P1"
    ∧ objGet (objGet (.obj (get_project_state topicFailedRun.2 "P1")) "stages")
        "topic_analysis" = pendingStage
    ∧ getStr (get_project_state topicFailedRun.2 "P1") "status" = "initializing"
    ∧ dictGet? (get_project_state topicFailedRun.2 "P1") "error" = none
    ∧ (get_project_timeline topicFailedRun.2 "P1").map (fun e => objGet e "event_type")
        = [.str "project_started", .str "topic_analysis_failed"]
    ∧ (get_project_timeline topicFailedRun.2 "P1").getLast?.map
        (fun e => objGet (objGet e "data") "error") = some (.str "boom")
    ∧ process_blog_workflow startedStore "P1" c5Ext "t1" = topicFailedRun.2 :=
  ⟨rfl, rfl, rfl, rfl, rfl, rfl, rfl, rfl, rfl⟩

/-- C6: after `start("P1", ...)` a get yields status INITIALIZING and
current_stage `topic_analysis` exactly as the claim states, but the
`topic_analysis` stage record's status is `pending`, not the claimed
`in_progress`: the in-progress mark computed by `_update_stage_status`
was written to the wrong Redis key by the update bug. -/
theorem C6_started_stage_still_pending :
    getStr (get_project_state startedStore "P1") "status" = "initializing"
    ∧ getStr (get_project_state startedStore "P1") "current_stage" = "topic_analysis"
    ∧ objGet (objGet (objGet (.obj (get_project_state startedStore "P1")) "stages")
        "topic_analysis") "status" = .str "pending"
    ∧ "pending" ≠ "in_progress" :=
  ⟨rfl, rfl, rfl, by decide⟩

/-- C7: the claim says a completed stage advances the persisted progress
to its checkpoint (15 for topic analysis).  After a successful
topic-analysis run the persisted progress is still 0: the
`progress: 15` update was written under the top-level key `progress`
instead of the project's state key. -/
theorem C7_progress_not_advanced :
    succeeded topicOkRun.1 = true
    ∧ dictGet? (get_project_state topicOkRun.2 "P1") "progress" = some (.num 0)
    ∧ (0 : Int) ≠ 15 :=
  ⟨rfl, rfl, by decide⟩

/-- C8: cancel on the started project returns the success response,
appends exactly one `project_cancelled` event recording the prior status,
and leaves every per-stage record unchanged; on a missing project it
fails without writing.  But the persisted global status is NOT set to
PAUSED — the whole state document is unchanged — because the `paused`
update is written to the wrong Redis key by the update bug. -/
theorem C8_cancel_status_not_persisted :
    cancelRun.1 = .ok [("project_id", .str "P1"), ("status", .str "cancelled"),
        ("message", .str "Blog creation process has been cancelled")]
    ∧ getStr (get_project_state cancelRun.2 "P1") "status" = "initializing"
    ∧ "initializing" ≠ "paused"
    ∧ get_project_state cancelRun.2 "P1" = get_project_state startedStore "P1"
    ∧ (get_project_timeline cancelRun.2 "P1").map (fun e => objGet e "event_type")
        = [.str "project_started", .str "project_cancelled"]
    ∧ (get_project_timeline cancelRun.2 "P1").getLast?.map
        (fun e => objGet (objGet e "data") "previous_status")
        = some (.str "initializing")
    ∧ cancel_blog_creation emptyStore "PX" "t9" = (.notFound, emptyStore) :=
  ⟨rfl, rfl, by decide, rfl, rfl, rfl, rfl⟩

/-- C9: the per-project timeline is append-only and order-preserving:
`add_event_to_project_timeline` appends the event — stamped with a
timestamp only when the caller supplied none — at the end of exactly that
project's list; reading the timeline of a project with no events yields
the empty sequence rather than an error; and across every mutating
state-store call, the timeline previously readable for any project is a
prefix of the new one, so previously returned events never change value
on subsequent reads. -/
theorem C9_timeline_append_only :
    (∀ (st : Store) (pid : String) (event : Doc) (now : String),
        get_project_timeline (add_event_to_project_timeline st pid event now).2 pid
          = get_project_timeline st pid ++ [JVal.obj (stampTimestamp event now)])
    ∧ (∀ pid : String, get_project_timeline emptyStore pid = [])
    ∧ (∀ (a b : Store) (pid : String), StoreStep a b →
        (get_project_timeline a pid).IsPrefix (get_project_timeline b pid)) := by
  refine ⟨?_, ?_, ?_⟩
  · intro st pid event now
    unfold add_event_to_project_timeline get_project_timeline
    dsimp only
    rw [dictGet?_dictSet_self]
    rfl
  · intro pid; rfl
  · intro a b pid hstep
    cases hstep with
    | create p initial now =>
      unfold get_project_timeline
      rw [create_lists]
    | update p updates now =>
      unfold get_project_timeline
      rw [update_lists]
    | delete p =>
      unfold get_project_timeline
      rw [delete_lists]
    | addEvent p event now =>
      rcases add_event_timeline a p pid event now with h | h
      · rw [h]
      · rw [h]
        exact List.prefix_append _ _

/-- Witness for C9 at a concrete store and event. -/
theorem C9_timeline_append_only_witness :
    get_project_timeline emptyStore "P1" = []
    ∧ (get_project_timeline startedStore "P1").IsPrefix
        (get_project_timeline (add_event_to_project_timeline startedStore "P1"
          (mkEvent "x" "y" .null) "t9").2 "P1") :=
  ⟨C9_timeline_append_only.2.1 "P1",
   C9_timeline_append_only.2.2 startedStore _ "P1"
     (StoreStep.addEvent startedStore "P1" (mkEvent "x" "y" .null) "t9")⟩

/-- C10 counterexample: on a project whose generated_content holds one
article, `process_site_generation` does fail — but with the slugify
ImportError, not the unbound-`uuid` NameError the claim blames: the
`subdomain` default argument calls `_generate_slug` before the content
loop runs, so the first article is never reached. -/
theorem C10_counterexample_error_is_slugify_import :
    jvalItems ((dictGet? (get_project_state c10Store "P1") "generated_content").getD
      (.arr [])) ≠ []
    ∧ succeeded c10Run.1 = false
    ∧ dictGet? c10Run.1 "error" = some (.str slugifyImportError)
    ∧ slugifyImportError ≠ contentItemNameError := by
  refine ⟨?_, rfl, rfl, by decide⟩
  intro h
  have hlen : (jvalItems ((dictGet? (get_project_state c10Store "P1")
      "generated_content").getD (.arr []))).length = 1 := rfl
  rw [h] at hlen
  exact absurd hlen (by decide)

/-- C10 amended: `process_site_generation` always returns a failure
outcome — for every store and project, with or without generated
articles — whose error is the ImportError raised when `_generate_slug`
locally imports the missing `slugify` helper; the unreachable
`_create_content_item_from_article` would indeed raise NameError on the
unbound `uuid`, but the slugify error fires first.  The failure path
computes a document marking the `site_generation` stage failed but the
update bug persists it under the key `updated_at` rather than the
project's key.  Consequently a full pipeline run on a freshly started
project leaves the persisted status `initializing` — never COMPLETED —
whatever the external collaborators return. -/
theorem C10_site_generation_always_fails :
    (∀ (st : Store) (pid now : String),
        succeeded (process_site_generation st pid now).1 = false
        ∧ dictGet? (process_site_generation st pid now).1 "error"
            = some (.str slugifyImportError))
    ∧ ((dictGet? (process_site_generation startedStore "P1" "t1").2.strings
          "updated_at").map
            (fun d => objGet (objGet (.obj d) "stages") "site_generation")
        = some (.obj [("status", .str "failed"), ("started_at", .null),
            ("completed_at", .str "t1")]))
    ∧ (∀ (pid topic : String) (prefs : JVal) (t0 now : String) (ext : WorkflowExt),
        getStr (get_project_state (process_blog_workflow
          (start_project emptyStore pid topic prefs t0).2 pid ext now) pid) "status"
          = "initializing") := by
  refine ⟨fun st pid now => ⟨rfl, rfl⟩, rfl, ?_⟩
  intro pid topic prefs t0 now ext
  unfold get_project_state
  rw [workflow_doc_unchanged pid topic prefs t0 now ext]
  rfl

end SeoBlog
